import Mathlib

/-
  Verification of the PetNet adoption-request lifecycle and publication
  availability state machine, as implemented in
  be-petnet/controllers/requestController.js (createRequest, deleteRequest,
  actualizarEstadoSolicitud) and the publication controller
  (createPublication, updatePublication, deletePublication).

  The persistence layer (Prisma/SQLite) is embedded as explicit state: a DB
  record holding the Publicacion, Mascota and Solicitud relations together
  with the autoincrement counters.  Each controller becomes a pure function
  from the request data and the current DB to a response, the next DB, and
  (for the status-change endpoint) the dispatched email notifications and a
  trace of the database calls it performed.  Each trace entry records
  whether the call ran inside a prisma transaction block, so that the
  presence or absence of a transaction around the approval cascade is
  visible.
-/

set_option maxRecDepth 8000

namespace PetNet

/-- Row of the Publicacion table (prisma/migrations: id, foto, estado,
usuarioId).  `estado` holds the availability state: the code writes
"disponible", "no disponible" (approval cascade) or "adoptado" (edit). -/
structure Publicacion where
  id : Nat
  foto : String
  estado : String
  usuarioId : Nat
deriving DecidableEq, Repr

/-- Row of the Mascota table (nombre, sexo, tipo, tamaño, descripcion,
publicacionId).  The source column is called tamaño; Lean identifiers do
not admit the character ñ, so the field is spelled tamano here. -/
structure Mascota where
  id : Nat
  nombre : String
  sexo : String
  tipo : String
  tamano : String
  descripcion : String
  publicacionId : Nat
deriving DecidableEq, Repr

/-- Row of the Solicitud table (estado, mensaje, usuarioId, publicacionId).
`estado` is one of "Pendiente", "Aprobada", "Rechazada". -/
structure Solicitud where
  id : Nat
  estado : String
  mensaje : String
  usuarioId : Nat
  publicacionId : Nat
deriving DecidableEq, Repr

/-- The relational store: three relations plus the SQLite autoincrement
counters used when a row is created. -/
structure DB where
  publicaciones : List Publicacion
  mascotas : List Mascota
  solicitudes : List Solicitud
  nextPublicacionId : Nat
  nextMascotaId : Nat
  nextSolicitudId : Nat
deriving DecidableEq, Repr

/-- Fresh database after the migrations ran: empty tables, counters at 1. -/
def emptyDB : DB := ⟨[], [], [], 1, 1, 1⟩

/-- A JavaScript value arriving in a JSON request body: absent, a number, or
a string.  This is enough to reproduce the truthiness checks and the
parseInt calls of the controllers. -/
inductive JValue where
  | undef
  | num (n : Int)
  | str (s : String)
deriving DecidableEq, Repr

/-- JavaScript truthiness of a body field: undefined and 0 and the empty
string are falsy. -/
def truthy : JValue → Bool
  | .undef => false
  | .num n => n != 0
  | .str s => s != ""

/-- Decimal digits at the front of the character list. -/
def leadingDigits (cs : List Char) : List Char := cs.takeWhile Char.isDigit

/-- Numeric value of a list of decimal digits. -/
def digitsVal (cs : List Char) : Nat :=
  cs.foldl (fun acc c => acc * 10 + (c.toNat - 48)) 0

/-- JavaScript parseInt over a character list: optional sign, then the
longest prefix of decimal digits; none models NaN. -/
def parseIntChars : List Char → Option Int
  | [] => none
  | c :: cs =>
    if c = '-' then
      match leadingDigits cs with
      | [] => none
      | ds => some (-(digitsVal ds : Int))
    else if c = '+' then
      match leadingDigits cs with
      | [] => none
      | ds => some ((digitsVal ds : Int))
    else
      match leadingDigits (c :: cs) with
      | [] => none
      | ds => some ((digitsVal ds : Int))

/-- JavaScript parseInt of a string (radix 10): skips leading whitespace,
then parses an optionally signed digit prefix; none models NaN. -/
def parseIntJS (s : String) : Option Int :=
  parseIntChars (s.toList.dropWhile Char.isWhitespace)

/-- parseInt applied to a JSON body value: numbers print and reparse to
themselves, undefined gives NaN. -/
def jsParseInt : JValue → Option Int
  | .undef => none
  | .num n => some n
  | .str s => parseIntJS s

/-- String rendering of a body value, used when the mensaje field is stored. -/
def jvString : JValue → String
  | .undef => "undefined"
  | .num n => toString n
  | .str s => s

/-- An HTTP-level response: status code and the message the controller puts
in the JSON body. -/
structure Resp where
  status : Nat
  message : String
deriving DecidableEq, Repr

/-- prisma.publicacion.findUnique by id (the id comes from parseInt, hence
an Int; rows store Nat ids). -/
def findPublicacion (db : DB) (id : Int) : Option Publicacion :=
  db.publicaciones.find? (fun p => ((p.id : Int) == id))

/-- prisma.solicitud.findUnique by id. -/
def findSolicitud (db : DB) (id : Int) : Option Solicitud :=
  db.solicitudes.find? (fun s => ((s.id : Int) == id))

/-- prisma.solicitud.findUnique on the composite unique key
(usuarioId, publicacionId). -/
def findSolicitudUnique (db : DB) (usuarioId publicacionId : Nat) : Option Solicitud :=
  db.solicitudes.find? (fun s => s.usuarioId == usuarioId && s.publicacionId == publicacionId)

/-- Result of the createRequest controller: response, created row (the
`data` field of the 201 body), next database state. -/
structure CreateRequestResult where
  resp : Resp
  data : Option Solicitud
  db : DB
deriving DecidableEq, Repr

/-- requestController.js createRequest (POST /requests), lines 6-112:
validate presence and parseInt of publicacionId and presence of mensaje
(400), find the publication (404), require estado "disponible" (400),
reject the owner's own publication (400), reject a duplicate request for
(usuarioId, publicacionId) (400), else create the Solicitud with estado
"Pendiente" (201). -/
def createRequest (db : DB) (userId : Nat) (publicacionId mensaje : JValue) :
    CreateRequestResult :=
  match jsParseInt publicacionId with
  | none => ⟨⟨400, "Faltan datos obligatorios (publicacionId y mensaje son requeridos)"⟩, none, db⟩
  | some pubId =>
    if truthy publicacionId = false ∨ truthy mensaje = false then
      ⟨⟨400, "Faltan datos obligatorios (publicacionId y mensaje son requeridos)"⟩, none, db⟩
    else
      match findPublicacion db pubId with
      | none => ⟨⟨404, "Publicación no encontrada"⟩, none, db⟩
      | some publicacion =>
        if publicacion.estado ≠ "disponible" then
          ⟨⟨400, "Esta publicación no está disponible para adopción"⟩, none, db⟩
        else if publicacion.usuarioId = userId then
          ⟨⟨400, "No puedes solicitar adopción de tu propia publicación"⟩, none, db⟩
        else
          match findSolicitudUnique db userId publicacion.id with
          | some _ => ⟨⟨400, "Ya enviaste una solicitud para esta publicación"⟩, none, db⟩
          | none =>
            let nueva : Solicitud :=
              ⟨db.nextSolicitudId, "Pendiente", jvString mensaje, userId, publicacion.id⟩
            ⟨⟨201, "Solicitud enviada correctamente"⟩, some nueva,
              { db with
                solicitudes := db.solicitudes ++ [nueva],
                nextSolicitudId := db.nextSolicitudId + 1 }⟩

example :
    (createRequest emptyDB 1 (JValue.str "abc") (JValue.str "hola")).resp.status = 400 := by
  decide

example :
    (createRequest emptyDB 1 (JValue.num 7) (JValue.str "hola")).resp.status = 404 := by
  decide

/-- Result of the deleteRequest controller (DELETE /requests/:id). -/
structure DeleteRequestResult where
  resp : Resp
  db : DB
deriving DecidableEq, Repr

/-- requestController.js deleteRequest (cancel), lines 115-157: parse the id
(400 on NaN), find the request (404), require the requester to own it (403),
require estado "Pendiente" (400), else delete the row (200). -/
def deleteRequest (db : DB) (userId : Nat) (idParam : String) : DeleteRequestResult :=
  match parseIntJS idParam with
  | none => ⟨⟨400, "ID de solicitud inválido"⟩, db⟩
  | some solicitudId =>
    match findSolicitud db solicitudId with
    | none => ⟨⟨404, "Solicitud no encontrada"⟩, db⟩
    | some solicitud =>
      if solicitud.usuarioId ≠ userId then
        ⟨⟨403, "No tienes permiso para cancelar esta solicitud"⟩, db⟩
      else if solicitud.estado ≠ "Pendiente" then
        ⟨⟨400, "Solo se pueden cancelar solicitudes pendientes"⟩, db⟩
      else
        ⟨⟨200, "Solicitud cancelada correctamente"⟩,
          { db with solicitudes := db.solicitudes.filter (fun s => s.id != solicitud.id) }⟩

/-- One database call (or email dispatch) performed by a controller, in
source order: a prisma read, a prisma write, or a nodemailer send.  The
desc string names the prisma model and method of the call, and inTx records
whether the call ran inside a prisma transaction block. -/
inductive DbOp where
  | read (desc : String) (inTx : Bool)
  | write (desc : String) (inTx : Bool)
  | email (usuarioId : Nat) (nuevoEstado : String)
deriving DecidableEq, Repr

/-- Writes a trace performed outside any transaction block. -/
def writesOutsideTx (t : List DbOp) : List DbOp :=
  t.filter (fun op => match op with | .write _ false => true | _ => false)

/-- All writes of a trace, inside or outside a transaction block. -/
def writesOf (t : List DbOp) : List DbOp :=
  t.filter (fun op => match op with | .write _ _ => true | _ => false)

/-- Emails appearing in a trace. -/
def emailsOf (t : List DbOp) : List DbOp :=
  t.filter (fun op => match op with | .email _ _ => true | _ => false)

/-- An email notification request handed to enviarNotificacionCambioEstado:
the code passes solicitud.usuario.email (the requester) and the new state;
the recipient is identified here by the requester user id. -/
structure Notif where
  usuarioId : Nat
  nuevoEstado : String
deriving DecidableEq, Repr

/-- Result of the actualizarEstadoSolicitud controller: response, the
solicitud row included in the response body, next database state, dispatched
notifications, and the trace of database calls. -/
structure ActualizarResult where
  resp : Resp
  solicitud : Option Solicitud
  db : DB
  notifs : List Notif
  trace : List DbOp
deriving DecidableEq, Repr

/-- prisma.solicitud.update where id, data estado (requestController.js
lines 333-336 and 373-376). -/
def updateSolicitudEstado (db : DB) (id : Nat) (estado : String) : DB :=
  { db with
    solicitudes := db.solicitudes.map
      (fun s => if s.id = id then { s with estado := estado } else s) }

/-- prisma.publicacion.update where id, data estado (requestController.js
lines 339-342). -/
def updatePublicacionEstado (db : DB) (id : Nat) (estado : String) : DB :=
  { db with
    publicaciones := db.publicaciones.map
      (fun p => if p.id = id then { p with estado := estado } else p) }

/-- prisma.solicitud.updateMany where publicacionId, id not exceptoId,
estado "Pendiente", data estado "Rechazada" (requestController.js lines
345-352). -/
def rechazarOtrasPendientes (db : DB) (publicacionId exceptoId : Nat) : DB :=
  { db with
    solicitudes := db.solicitudes.map
      (fun s =>
        if s.publicacionId = publicacionId ∧ s.id ≠ exceptoId ∧ s.estado = "Pendiente"
        then { s with estado := "Rechazada" } else s) }

/-- The three writes the approval branch performs in sequence, each a
separate awaited prisma call (requestController.js lines 331-352; there is
no prisma transaction around them): set the request to "Aprobada", set the
publication to "no disponible", reject the other pending requests on the
same publication.  The solicitud argument is the row read before the
writes. -/
def aprobarCascada (db : DB) (solicitud : Solicitud) : DB :=
  rechazarOtrasPendientes
    (updatePublicacionEstado
      (updateSolicitudEstado db solicitud.id "Aprobada")
      solicitud.publicacionId "no disponible")
    solicitud.publicacionId solicitud.id

/-- The allowed target states (requestController.js line 282). -/
def estadosPermitidos : List String := ["Aprobada", "Rechazada", "Pendiente"]

/-- requestController.js actualizarEstadoSolicitud (PATCH
/requests/:id/estado), lines 265-402: a NaN id gives a 500 response
"Error interno del servidor" (with error detail "ID de solicitud inválido");
a target state outside estadosPermitidos gives 400 "Estado no válido"; a
missing request gives 404; a non-owner gives 403; an already approved
request gives 400; an unchanged state returns the row with no write and no
email; approving runs aprobarCascada and emails the requester; any other
state change updates the one row and emails the requester.  The 500 branch
for a missing publication row models the TypeError the code would throw
reading solicitud.publicacion.usuarioId, caught by the catch block. -/
def actualizarEstadoSolicitud (db : DB) (userId : Nat) (idParam : String)
    (nuevoEstado : String) : ActualizarResult :=
  match parseIntJS idParam with
  | none => ⟨⟨500, "Error interno del servidor"⟩, none, db, [], []⟩
  | some solicitudId =>
    if estadosPermitidos.contains nuevoEstado = false then
      ⟨⟨400, "Estado no válido"⟩, none, db, [], []⟩
    else
      match findSolicitud db solicitudId with
      | none =>
        ⟨⟨404, "Solicitud no encontrada"⟩, none, db, [], [.read "solicitud.findUnique" false]⟩
      | some solicitud =>
        match findPublicacion db (solicitud.publicacionId : Int) with
        | none =>
          ⟨⟨500, "Error interno del servidor"⟩, none, db, [], [.read "solicitud.findUnique" false]⟩
        | some publicacion =>
          if publicacion.usuarioId ≠ userId then
            ⟨⟨403, "No autorizado para modificar esta solicitud"⟩, none, db, [],
              [.read "solicitud.findUnique" false]⟩
          else if solicitud.estado = "Aprobada" then
            ⟨⟨400, "No se puede modificar una solicitud aprobada"⟩, none, db, [],
              [.read "solicitud.findUnique" false]⟩
          else if solicitud.estado = nuevoEstado then
            ⟨⟨200, "El estado ya estaba actualizado. No se envió correo."⟩,
              some solicitud, db, [], [.read "solicitud.findUnique" false]⟩
          else if nuevoEstado = "Aprobada" then
            ⟨⟨200, "Solicitud actualizada a " ++ nuevoEstado ++ " y correo enviado al solicitante."⟩,
              some { solicitud with estado := nuevoEstado },
              aprobarCascada db solicitud,
              [⟨solicitud.usuarioId, nuevoEstado⟩],
              [.read "solicitud.findUnique" false,
               .write "solicitud.update" false, .write "publicacion.update" false,
               .write "solicitud.updateMany" false,
               .email solicitud.usuarioId nuevoEstado]⟩
          else
            ⟨⟨200, "Solicitud actualizada a " ++ nuevoEstado ++ " y correo enviado al solicitante."⟩,
              some { solicitud with estado := nuevoEstado },
              updateSolicitudEstado db solicitud.id nuevoEstado,
              [⟨solicitud.usuarioId, nuevoEstado⟩],
              [.read "solicitud.findUnique" false, .write "solicitud.update" false,
               .email solicitud.usuarioId nuevoEstado]⟩

example :
    (actualizarEstadoSolicitud emptyDB 1 "abc" "Aprobada").resp.status = 500 := by
  decide

example :
    (actualizarEstadoSolicitud emptyDB 1 "3" "Cerrada").resp =
      ⟨400, "Estado no válido"⟩ := by
  decide

/-- Body of POST /publications: all fields mandatory (the source column
tamaño is spelled tamano, as in Mascota). -/
structure CreateBody where
  nombre : String
  tamano : String
  sexo : String
  tipo : String
  descripcion : String
  foto : String
deriving DecidableEq, Repr

/-- Body of PUT /publications/:id: pet fields mandatory, foto and estado
optional (express-validator optional() skips an absent field). -/
structure UpdateBody where
  nombre : String
  tamano : String
  sexo : String
  tipo : String
  descripcion : String
  foto : Option String
  estado : Option String
deriving DecidableEq, Repr

/-- Character-list prefix test (structurally recursive, so that concrete
runs reduce in the kernel). -/
def esPrefijo : List Char → List Char → Bool
  | [], _ => true
  | _ :: _, [] => false
  | c :: cs, d :: ds => c == d && esPrefijo cs ds

/-- The custom base64 validator on foto: the value must start with a
data:image prefix for one of the five formats. -/
def fotoBase64Valida (s : String) : Bool :=
  ["jpeg", "jpg", "png", "gif", "webp"].any
    (fun ext => esPrefijo ("data:image/" ++ ext ++ ";base64,").toList s.toList)

/-- The custom size validator on foto: at most 7000000 characters. -/
def fotoLongitudValida (s : String) : Bool := s.length ≤ 7000000

/-- createPublicationValidations (publicationController lines 308-330):
nombre and descripcion not empty, tamaño, sexo and tipo in their enumerated
sets, foto mandatory, base64 data:image prefix, bounded length. -/
def createPublicationValidations (b : CreateBody) : Bool :=
  b.nombre != "" &&
  ["Chico", "Mediano", "Grande"].contains b.tamano &&
  ["Macho", "Hembra"].contains b.sexo &&
  ["Perro", "Gato", "Pájaro", "Conejo"].contains b.tipo &&
  b.descripcion != "" &&
  b.foto != "" && fotoBase64Valida b.foto && fotoLongitudValida b.foto

/-- updatePublicationValidations (publicationController lines 402-428):
same pet-field checks; estado is optional and, when present, must be
"disponible" or "adoptado"; foto is optional and, when present, must pass
the base64 and size checks. -/
def updatePublicationValidations (b : UpdateBody) : Bool :=
  b.nombre != "" &&
  ["Chico", "Mediano", "Grande"].contains b.tamano &&
  ["Macho", "Hembra"].contains b.sexo &&
  ["Perro", "Gato", "Pájaro", "Conejo"].contains b.tipo &&
  b.descripcion != "" &&
  (match b.estado with
   | none => true
   | some e => ["disponible", "adoptado"].contains e) &&
  (match b.foto with
   | none => true
   | some f => fotoBase64Valida f && fotoLongitudValida f)

/-- Result of createPublication and deletePublication. -/
structure PublicationResult where
  resp : Resp
  db : DB
deriving DecidableEq, Repr

/-- publicationController createPublication (lines 333-399): validate the
body (400), require an authenticated user id (401; the JS check is
!userId, modelled as userId = 0), then inside one prisma transaction create
the Publicacion with estado "disponible" and its Mascota (201). -/
def createPublication (db : DB) (userId : Nat) (b : CreateBody) : PublicationResult :=
  if createPublicationValidations b = false then ⟨⟨400, "errores"⟩, db⟩
  else if userId = 0 then ⟨⟨401, "No autorizado"⟩, db⟩
  else
    let nuevaPublicacion : Publicacion := ⟨db.nextPublicacionId, b.foto, "disponible", userId⟩
    let nuevaMascota : Mascota :=
      ⟨db.nextMascotaId, b.nombre, b.sexo, b.tipo, b.tamano, b.descripcion, nuevaPublicacion.id⟩
    ⟨⟨201, "La publicación se creó correctamente"⟩,
      { db with
        publicaciones := db.publicaciones ++ [nuevaPublicacion],
        mascotas := db.mascotas ++ [nuevaMascota],
        nextPublicacionId := db.nextPublicacionId + 1,
        nextMascotaId := db.nextMascotaId + 1 }⟩

/-- Result of the updatePublication controller, with the trace of database
calls (its writes run inside a prisma transaction). -/
structure UpdateResult where
  resp : Resp
  db : DB
  trace : List DbOp
deriving DecidableEq, Repr

/-- publicationController updatePublication (lines 436-524): validate the
body (400), parse the id (400), require an authenticated user (401),
find the publication with its Mascota (404), require ownership (403); then
inside one prisma transaction build updateData from the present foto and
estado fields, update the Publicacion when updateData is nonempty, and
update the first associated Mascota if it exists, else create it (200). -/
def updatePublication (db : DB) (userId : Nat) (idParam : String) (b : UpdateBody) :
    UpdateResult :=
  if updatePublicationValidations b = false then ⟨⟨400, "errores"⟩, db, []⟩
  else
    match parseIntJS idParam with
    | none => ⟨⟨400, "ID de publicación inválido"⟩, db, []⟩
    | some pubId =>
      if userId = 0 then ⟨⟨401, "No autorizado"⟩, db, []⟩
      else
        match findPublicacion db pubId with
        | none =>
          ⟨⟨404, "Publicación no encontrada"⟩, db, [.read "publicacion.findUnique" false]⟩
        | some publicacion =>
          if publicacion.usuarioId ≠ userId then
            ⟨⟨403, "No tienes permiso para editar esta publicación"⟩, db,
              [.read "publicacion.findUnique" false]⟩
          else
            let mascotaExistente :=
              (db.mascotas.filter (fun m => m.publicacionId == publicacion.id)).head?
            let publicacionActualizada : Publicacion :=
              { publicacion with
                foto := b.foto.getD publicacion.foto,
                estado := b.estado.getD publicacion.estado }
            let dbPub : DB :=
              { db with
                publicaciones := db.publicaciones.map
                  (fun p => if p.id = publicacion.id then publicacionActualizada else p) }
            let trazaPub : List DbOp :=
              if b.foto.isSome || b.estado.isSome then [.write "publicacion.update" true] else []
            match mascotaExistente with
            | some m =>
              let mascotaActualizada : Mascota :=
                { m with
                  nombre := b.nombre, tamano := b.tamano, sexo := b.sexo,
                  tipo := b.tipo, descripcion := b.descripcion }
              ⟨⟨200, "La publicación se editó correctamente"⟩,
                { dbPub with
                  mascotas := db.mascotas.map
                    (fun x => if x.id = m.id then mascotaActualizada else x) },
                [.read "publicacion.findUnique" false] ++ trazaPub ++
                  [.write "mascota.update" true]⟩
            | none =>
              let nuevaMascota : Mascota :=
                ⟨db.nextMascotaId, b.nombre, b.sexo, b.tipo, b.tamano, b.descripcion,
                  publicacion.id⟩
              ⟨⟨200, "La publicación se editó correctamente"⟩,
                { dbPub with
                  mascotas := db.mascotas ++ [nuevaMascota],
                  nextMascotaId := db.nextMascotaId + 1 },
                [.read "publicacion.findUnique" false] ++ trazaPub ++
                  [.write "mascota.create" true]⟩

/-- publicationController deletePublication (lines 699-739): parse the id
(400), require an authenticated user (401), find the publication (404),
require ownership (403), then delete the row; the Mascota and Solicitud
rows referencing it are removed by the ON DELETE CASCADE foreign keys of
the add_cascade_delete migration. -/
def deletePublication (db : DB) (userId : Nat) (idParam : String) : PublicationResult :=
  match parseIntJS idParam with
  | none => ⟨⟨400, "ID de publicación inválido"⟩, db⟩
  | some pubId =>
    if userId = 0 then ⟨⟨401, "No autorizado"⟩, db⟩
    else
      match findPublicacion db pubId with
      | none => ⟨⟨404, "Publicación no encontrada"⟩, db⟩
      | some publicacion =>
        if publicacion.usuarioId ≠ userId then
          ⟨⟨403, "No tienes permiso para eliminar esta publicación"⟩, db⟩
        else
          ⟨⟨200, "La publicación se eliminó correctamente"⟩,
            { db with
              publicaciones := db.publicaciones.filter (fun p => p.id != publicacion.id),
              mascotas := db.mascotas.filter (fun m => m.publicacionId != publicacion.id),
              solicitudes := db.solicitudes.filter (fun s => s.publicacionId != publicacion.id) }⟩

/-- One core operation applied with arbitrary request data: the relation
between a database state and a successor state. -/
inductive Step : DB → DB → Prop where
  | createPub (db : DB) (userId : Nat) (b : CreateBody) :
      Step db (createPublication db userId b).db
  | updatePub (db : DB) (userId : Nat) (idParam : String) (b : UpdateBody) :
      Step db (updatePublication db userId idParam b).db
  | deletePub (db : DB) (userId : Nat) (idParam : String) :
      Step db (deletePublication db userId idParam).db
  | createReq (db : DB) (userId : Nat) (publicacionId mensaje : JValue) :
      Step db (createRequest db userId publicacionId mensaje).db
  | deleteReq (db : DB) (userId : Nat) (idParam : String) :
      Step db (deleteRequest db userId idParam).db
  | cambiarEstado (db : DB) (userId : Nat) (idParam : String) (nuevoEstado : String) :
      Step db (actualizarEstadoSolicitud db userId idParam nuevoEstado).db

/-- States reachable from the fresh database through the core operations. -/
def Reachable (db : DB) : Prop := Relation.ReflTransGen Step emptyDB db

/-- Like Step, but the edit operation never supplies an availability value
(b.estado = none).  Used for the amended availability invariant. -/
inductive StepSinEstadoEdit : DB → DB → Prop where
  | createPub (db : DB) (userId : Nat) (b : CreateBody) :
      StepSinEstadoEdit db (createPublication db userId b).db
  | updatePub (db : DB) (userId : Nat) (idParam : String) (b : UpdateBody)
      (h : b.estado = none) :
      StepSinEstadoEdit db (updatePublication db userId idParam b).db
  | deletePub (db : DB) (userId : Nat) (idParam : String) :
      StepSinEstadoEdit db (deletePublication db userId idParam).db
  | createReq (db : DB) (userId : Nat) (publicacionId mensaje : JValue) :
      StepSinEstadoEdit db (createRequest db userId publicacionId mensaje).db
  | deleteReq (db : DB) (userId : Nat) (idParam : String) :
      StepSinEstadoEdit db (deleteRequest db userId idParam).db
  | cambiarEstado (db : DB) (userId : Nat) (idParam : String) (nuevoEstado : String) :
      StepSinEstadoEdit db (actualizarEstadoSolicitud db userId idParam nuevoEstado).db

/-- States reachable from the fresh database when edit never supplies an
availability value. -/
def ReachableSinEstadoEdit (db : DB) : Prop :=
  Relation.ReflTransGen StepSinEstadoEdit emptyDB db

/-- The availability invariant of spec sections 3 and 8: a publication is
"no disponible" exactly when some request on it is "Aprobada". -/
def pubInvariant (db : DB) : Prop :=
  ∀ p ∈ db.publicaciones,
    (p.estado = "no disponible" ↔
      ∃ s ∈ db.solicitudes, s.publicacionId = p.id ∧ s.estado = "Aprobada")

instance (db : DB) : Decidable (pubInvariant db) := by
  unfold pubInvariant; infer_instance

/-- Structural well-formedness the real store guarantees: ids below the
autoincrement counters, primary keys unique, and every solicitud
referencing an existing publicacion (the foreign key). -/
def WF (db : DB) : Prop :=
  (∀ p ∈ db.publicaciones, p.id < db.nextPublicacionId) ∧
  (db.publicaciones.map Publicacion.id).Nodup ∧
  (∀ s ∈ db.solicitudes, s.id < db.nextSolicitudId) ∧
  (db.solicitudes.map Solicitud.id).Nodup ∧
  (∀ s ∈ db.solicitudes, ∃ p ∈ db.publicaciones, p.id = s.publicacionId)

/-- The error taxonomy of spec section 7, plus success and the 401 case. -/
inductive ErrorClass where
  | success
  | validationError
  | unauthorized
  | forbidden
  | notFound
  | conflict
  | internal
deriving DecidableEq, Repr

/-- Classification of the controller responses into the spec section 7
taxonomy.  The controllers use status 400 both for malformed input and for
business-rule conflicts; following the mapping of spec sections 4.1 and 7
(ValidationError for missing or malformed fields, Conflict for
not-available, self-request, duplicate, wrong current state), the 400
responses are told apart by their message. -/
def respClass (r : Resp) : ErrorClass :=
  if r.status = 200 ∨ r.status = 201 then .success
  else if r.status = 401 then .unauthorized
  else if r.status = 403 then .forbidden
  else if r.status = 404 then .notFound
  else if r.status = 500 then .internal
  else if r.message = "Faltan datos obligatorios (publicacionId y mensaje son requeridos)" ∨
          r.message = "Estado no válido" ∨
          r.message = "ID de solicitud inválido" ∨
          r.message = "ID de publicación inválido" ∨
          r.message = "errores" then .validationError
  else .conflict

/-- Outcome of a submit call, stated in the spec's vocabulary: an error of
one of the taxonomy kinds, or the created request. -/
inductive SubmitOutcome where
  | error (k : ErrorClass)
  | created (s : Solicitud)
deriving DecidableEq, Repr

/-- Spec-side restatement of the amended submit claim, written from its
words: the checks run in order with the first failure winning —
publicacionId parses under parseInt (no positivity requirement) and both
fields are present, else ValidationError; the publication exists, else
NotFound; it is available, else Conflict; it is not the caller's own, else
Conflict; no request for (requester, publication) exists, else Conflict;
otherwise the request is created with state "Pendiente". -/
def submitSpec (db : DB) (userId : Nat) (publicacionId mensaje : JValue) : SubmitOutcome :=
  match jsParseInt publicacionId with
  | none => .error .validationError
  | some pubId =>
    if truthy publicacionId = false ∨ truthy mensaje = false then .error .validationError
    else
      match findPublicacion db pubId with
      | none => .error .notFound
      | some p =>
        if p.estado ≠ "disponible" then .error .conflict
        else if p.usuarioId = userId then .error .conflict
        else if (findSolicitudUnique db userId p.id).isSome then .error .conflict
        else .created ⟨db.nextSolicitudId, "Pendiente", jvString mensaje, userId, p.id⟩

/-- Projection of a createRequest result onto the spec vocabulary. -/
def submitOutcome (r : CreateRequestResult) : SubmitOutcome :=
  match r.data with
  | some s => .created s
  | none => .error (respClass r.resp)

/-- The database state a submit outcome announces: unchanged on error, the
created row appended on success. -/
def submitSpecDB (db : DB) (o : SubmitOutcome) : DB :=
  match o with
  | .error _ => db
  | .created s =>
    { db with solicitudes := db.solicitudes ++ [s], nextSolicitudId := db.nextSolicitudId + 1 }

/-- A valid create-publication body used in the concrete scenarios. -/
def cuerpoCrear : CreateBody :=
  ⟨"Firulais", "Chico", "Macho", "Perro", "Un perro", "data:image/png;base64,AAAA"⟩

/-- An edit body that supplies availability "disponible" and omits the
photo. -/
def cuerpoEditarDisponible : UpdateBody :=
  ⟨"Firulais", "Chico", "Macho", "Perro", "Un perro", none, some "disponible"⟩

/-- An edit body that supplies availability "adoptado" and omits the
photo. -/
def cuerpoEditarAdoptado : UpdateBody :=
  ⟨"Firulais", "Chico", "Macho", "Perro", "Un perro", none, some "adoptado"⟩

/-- An edit body that omits both the photo and the availability value. -/
def cuerpoEditarNeutro : UpdateBody :=
  ⟨"Firulais", "Chico", "Macho", "Perro", "Un perro", none, none⟩

/-- Concrete store for the status-change scenarios: publication 1 owned by
user 1 and available, request 1 by user 2 and request 2 by user 3, both
pending. -/
def publicacionE : Publicacion := ⟨1, "data:image/png;base64,AAAA", "disponible", 1⟩

/-- Pending request by user 2 on publication 1. -/
def solicitudE1 : Solicitud := ⟨1, "Pendiente", "quiero adoptar", 2, 1⟩

/-- Pending request by user 3 on publication 1. -/
def solicitudE2 : Solicitud := ⟨2, "Pendiente", "yo primero", 3, 1⟩

/-- The two-pending-requests store. -/
def dbE : DB := ⟨[publicacionE], [], [solicitudE1, solicitudE2], 2, 1, 3⟩

/-- An already approved request by user 2 on publication 1. -/
def solicitudF : Solicitud := ⟨1, "Aprobada", "quiero adoptar", 2, 1⟩

/-- Store holding an approved request, for the approved-is-terminal
scenarios. -/
def dbF : DB := ⟨[⟨1, "data:image/png;base64,AAAA", "no disponible", 1⟩], [], [solicitudF], 2, 1, 2⟩

/-- Store holding an unavailable publication owned by user 1. -/
def dbG : DB := ⟨[⟨1, "data:image/png;base64,AAAA", "no disponible", 1⟩], [], [], 2, 1, 1⟩

/-- User 1 publishes a pet. -/
def dbPub : DB := (createPublication emptyDB 1 cuerpoCrear).db

/-- User 2 submits a request on publication 1 (request 1, pending). -/
def dbReq1 : DB := (createRequest dbPub 2 (JValue.num 1) (JValue.str "quiero adoptar")).db

/-- User 3 submits a request on publication 1 (request 2, pending). -/
def dbReq2 : DB := (createRequest dbReq1 3 (JValue.num 1) (JValue.str "yo primero")).db

/-- The owner approves request 1 (after only request 1 exists). -/
def dbAprob1 : DB := (actualizarEstadoSolicitud dbReq1 1 "1" "Aprobada").db

/-- The owner then edits the publication supplying availability
"disponible", although request 1 is approved. -/
def dbEditado : DB := (updatePublication dbAprob1 1 "1" cuerpoEditarDisponible).db

/-- The owner approves request 1 while request 2 is pending (request 2 is
auto-rejected). -/
def dbAprobA : DB := (actualizarEstadoSolicitud dbReq2 1 "1" "Aprobada").db

/-- The owner then approves the auto-rejected request 2 as well. -/
def dbAprobB : DB := (actualizarEstadoSolicitud dbAprobA 1 "2" "Aprobada").db

example : (createPublication emptyDB 1 cuerpoCrear).resp.status = 201 := by decide
example : dbReq1.solicitudes = [⟨1, "Pendiente", "quiero adoptar", 2, 1⟩] := by decide
example : (actualizarEstadoSolicitud dbReq1 1 "1" "Aprobada").resp.status = 200 := by decide
example : dbAprob1.publicaciones = [⟨1, "data:image/png;base64,AAAA", "no disponible", 1⟩] := by
  decide
example : pubInvariant dbAprob1 := by decide
example : (updatePublication dbAprob1 1 "1" cuerpoEditarDisponible).resp.status = 200 := by decide
example : ¬ pubInvariant dbEditado := by decide
example :
    dbAprobA.solicitudes =
      [⟨1, "Aprobada", "quiero adoptar", 2, 1⟩, ⟨2, "Rechazada", "yo primero", 3, 1⟩] := by
  decide
example : (actualizarEstadoSolicitud dbAprobA 1 "2" "Aprobada").resp.status = 200 := by decide
example :
    dbAprobB.solicitudes =
      [⟨1, "Aprobada", "quiero adoptar", 2, 1⟩, ⟨2, "Aprobada", "yo primero", 3, 1⟩] := by
  decide

lemma findSolicitud_mem {db : DB} {id : Int} {s : Solicitud}
    (h : findSolicitud db id = some s) : s ∈ db.solicitudes :=
  List.mem_of_find?_eq_some h

lemma findPublicacion_mem {db : DB} {id : Int} {p : Publicacion}
    (h : findPublicacion db id = some p) : p ∈ db.publicaciones :=
  List.mem_of_find?_eq_some h

/-- Claim C9: approving request 1 on the shared publication auto-rejects
pending request 2, after which the owner may change request 2 from
"Rechazada" straight to "Aprobada" — the guard only excludes requests that
are already approved, with no check of the publication's availability or of
sibling states — so a state with two approved requests on one publication
is reachable. -/
theorem rechazada_luego_aprobada_dos_aprobadas :
    Reachable dbAprobB ∧
    (findSolicitud dbAprobA 2).map Solicitud.estado = some "Rechazada" ∧
    (actualizarEstadoSolicitud dbAprobA 1 "2" "Aprobada").resp.status = 200 ∧
    ∃ s1 ∈ dbAprobB.solicitudes, ∃ s2 ∈ dbAprobB.solicitudes,
      s1.id ≠ s2.id ∧ s1.publicacionId = s2.publicacionId ∧
      s1.estado = "Aprobada" ∧ s2.estado = "Aprobada" := by
  refine ⟨?_, by decide, by decide, ?_⟩
  · have h1 : Step emptyDB dbPub := Step.createPub emptyDB 1 cuerpoCrear
    have h2 : Step dbPub dbReq1 :=
      Step.createReq dbPub 2 (JValue.num 1) (JValue.str "quiero adoptar")
    have h3 : Step dbReq1 dbReq2 :=
      Step.createReq dbReq1 3 (JValue.num 1) (JValue.str "yo primero")
    have h4 : Step dbReq2 dbAprobA := Step.cambiarEstado dbReq2 1 "1" "Aprobada"
    have h5 : Step dbAprobA dbAprobB := Step.cambiarEstado dbAprobA 1 "2" "Aprobada"
    exact .tail (.tail (.tail (.tail (.single h1) h2) h3) h4) h5
  · exact ⟨⟨1, "Aprobada", "quiero adoptar", 2, 1⟩, by decide,
      ⟨2, "Aprobada", "yo primero", 3, 1⟩, by decide, by decide⟩

/-- Claim C3 (evidence of the code bug): the approval path of
actualizarEstadoSolicitud runs its read and its three writes as separate
awaited prisma calls with no transaction around them (writesOutsideTx of
its trace is the full write list).  Under sequentially consistent
interleaving of those calls, two concurrent approvals of the two pending
requests on publication 1, each reading its snapshot from dbE before either
writes, both pass every guard (both respond 200) and their combined writes
leave request 1 and request 2 both "Aprobada". -/
theorem aprobaciones_concurrentes_ambas_aprobadas :
    (actualizarEstadoSolicitud dbE 1 "1" "Aprobada").resp.status = 200 ∧
    (actualizarEstadoSolicitud dbE 1 "2" "Aprobada").resp.status = 200 ∧
    (actualizarEstadoSolicitud dbE 1 "1" "Aprobada").db = aprobarCascada dbE solicitudE1 ∧
    (actualizarEstadoSolicitud dbE 1 "2" "Aprobada").db = aprobarCascada dbE solicitudE2 ∧
    writesOutsideTx (actualizarEstadoSolicitud dbE 1 "1" "Aprobada").trace =
      [.write "solicitud.update" false, .write "publicacion.update" false,
       .write "solicitud.updateMany" false] ∧
    (findSolicitud (aprobarCascada (aprobarCascada dbE solicitudE1) solicitudE2) 1).map
        Solicitud.estado = some "Aprobada" ∧
    (findSolicitud (aprobarCascada (aprobarCascada dbE solicitudE1) solicitudE2) 2).map
        Solicitud.estado = some "Aprobada" := by
  decide

/-- Claim C8 (counterexample): an unparseable request id makes
actualizarEstadoSolicitud answer 500 "Error interno del servidor" — an
Internal error, exactly what the claim rules out — rather than a
ValidationError; the store is untouched. -/
theorem estado_id_invalido_500 :
    parseIntJS "abc" = none ∧
    (actualizarEstadoSolicitud emptyDB 1 "abc" "Aprobada").resp =
      ⟨500, "Error interno del servidor"⟩ ∧
    respClass (actualizarEstadoSolicitud emptyDB 1 "abc" "Aprobada").resp =
      ErrorClass.internal ∧
    ErrorClass.internal ≠ ErrorClass.validationError ∧
    (actualizarEstadoSolicitud emptyDB 1 "abc" "Aprobada").db = emptyDB := by
  decide

/-- Claim C8 (amended): an unparseable request id yields the 500 Internal
response (the code's own test expects 500 here) with no mutation and no
notification; a parseable id with a target state outside the permitted set
yields the 400 ValidationError "Estado no válido", again with no mutation
and no notification. -/
theorem estado_validaciones (db : DB) (userId : Nat) (idParam nuevoEstado : String) :
    (parseIntJS idParam = none →
      actualizarEstadoSolicitud db userId idParam nuevoEstado =
        ⟨⟨500, "Error interno del servidor"⟩, none, db, [], []⟩) ∧
    (∀ n : Int, parseIntJS idParam = some n →
      estadosPermitidos.contains nuevoEstado = false →
      actualizarEstadoSolicitud db userId idParam nuevoEstado =
        ⟨⟨400, "Estado no válido"⟩, none, db, [], []⟩) := by
  constructor
  · intro h
    unfold actualizarEstadoSolicitud
    rw [h]
  · intro n hn hperm
    unfold actualizarEstadoSolicitud
    rw [hn, hperm]
    simp

/-- Witness for estado_validaciones at concrete inputs. -/
theorem estado_validaciones_witness :
    actualizarEstadoSolicitud emptyDB 1 "abc" "Pendiente" =
      ⟨⟨500, "Error interno del servidor"⟩, none, emptyDB, [], []⟩ ∧
    actualizarEstadoSolicitud emptyDB 1 "1" "Cerrada" =
      ⟨⟨400, "Estado no válido"⟩, none, emptyDB, [], []⟩ :=
  ⟨(estado_validaciones emptyDB 1 "abc" "Pendiente").1 (by decide),
   (estado_validaciones emptyDB 1 "1" "Cerrada").2 1 (by decide) (by decide)⟩

/-- Claim C4: once a request is "Aprobada", every status change attempt by
the owner — to any permitted target state, "Aprobada" itself included — is
rejected with the 400 Conflict "No se puede modificar una solicitud
aprobada", leaving the store (the request, its publication and its
siblings) untouched and sending no notification. -/
theorem aprobada_es_terminal (db : DB) (userId : Nat) (idParam nuevoEstado : String)
    (solicitudId : Int) (sol : Solicitud) (pub : Publicacion)
    (hparse : parseIntJS idParam = some solicitudId)
    (hperm : estadosPermitidos.contains nuevoEstado = true)
    (hfind : findSolicitud db solicitudId = some sol)
    (hpub : findPublicacion db (sol.publicacionId : Int) = some pub)
    (howner : pub.usuarioId = userId)
    (haprob : sol.estado = "Aprobada") :
    actualizarEstadoSolicitud db userId idParam nuevoEstado =
      ⟨⟨400, "No se puede modificar una solicitud aprobada"⟩, none, db, [],
        [.read "solicitud.findUnique" false]⟩ ∧
    respClass ⟨400, "No se puede modificar una solicitud aprobada"⟩ = ErrorClass.conflict := by
  refine ⟨?_, by decide⟩
  unfold actualizarEstadoSolicitud
  simp only [hparse, hperm, hfind, hpub]
  simp [howner, haprob]

/-- Witness for aprobada_es_terminal: re-approving the approved request 1
of dbF is rejected. -/
theorem aprobada_es_terminal_witness :
    actualizarEstadoSolicitud dbF 1 "1" "Aprobada" =
      ⟨⟨400, "No se puede modificar una solicitud aprobada"⟩, none, dbF, [],
        [.read "solicitud.findUnique" false]⟩ ∧
    respClass ⟨400, "No se puede modificar una solicitud aprobada"⟩ = ErrorClass.conflict :=
  aprobada_es_terminal dbF 1 "1" "Aprobada" 1 solicitudF
    ⟨1, "data:image/png;base64,AAAA", "no disponible", 1⟩
    (by decide) (by decide) (by decide) (by decide) (by decide) (by decide)

/-- Claim C7: when the target state equals the request's current state (and
the request is not approved), actualizarEstadoSolicitud performs no write,
dispatches no notification, and returns the unchanged request with the 200
already-up-to-date message. -/
theorem estado_sin_cambio_no_op (db : DB) (userId : Nat) (idParam nuevoEstado : String)
    (solicitudId : Int) (sol : Solicitud) (pub : Publicacion)
    (hparse : parseIntJS idParam = some solicitudId)
    (hperm : estadosPermitidos.contains nuevoEstado = true)
    (hfind : findSolicitud db solicitudId = some sol)
    (hpub : findPublicacion db (sol.publicacionId : Int) = some pub)
    (howner : pub.usuarioId = userId)
    (hna : sol.estado ≠ "Aprobada")
    (heq : nuevoEstado = sol.estado) :
    actualizarEstadoSolicitud db userId idParam nuevoEstado =
      ⟨⟨200, "El estado ya estaba actualizado. No se envió correo."⟩, some sol, db, [],
        [.read "solicitud.findUnique" false]⟩ := by
  unfold actualizarEstadoSolicitud
  simp only [hparse, hperm, hfind, hpub]
  simp [howner, hna, heq]

/-- Witness for estado_sin_cambio_no_op: re-targeting pending request 1 of
dbE to "Pendiente" is a pure no-op. -/
theorem estado_sin_cambio_no_op_witness :
    actualizarEstadoSolicitud dbE 1 "1" "Pendiente" =
      ⟨⟨200, "El estado ya estaba actualizado. No se envió correo."⟩, some solicitudE1, dbE, [],
        [.read "solicitud.findUnique" false]⟩ :=
  estado_sin_cambio_no_op dbE 1 "1" "Pendiente" 1 solicitudE1 publicacionE
    (by decide) (by decide) (by decide) (by decide) (by decide) (by decide) (by decide)

/-- Claim C6: a user submitting a request on their own existing publication
always gets a Conflict-class 400 and no mutation, whatever the
publication's availability: when it is not "disponible" the availability
guard fires, and when it is "disponible" the own-publication guard fires —
both are Conflict responses. -/
theorem solicitud_propia_conflicto (db : DB) (userId : Nat) (publicacionId mensaje : JValue)
    (pubId : Int) (pub : Publicacion)
    (hparse : jsParseInt publicacionId = some pubId)
    (ht : truthy publicacionId = true)
    (hm : truthy mensaje = true)
    (hfind : findPublicacion db pubId = some pub)
    (hown : pub.usuarioId = userId) :
    respClass (createRequest db userId publicacionId mensaje).resp = ErrorClass.conflict ∧
    (createRequest db userId publicacionId mensaje).resp.status = 400 ∧
    (createRequest db userId publicacionId mensaje).db = db := by
  unfold createRequest
  simp only [hparse, hfind]
  by_cases hdisp : pub.estado = "disponible"
  · simp [ht, hm, hdisp, hown]
    decide
  · simp [ht, hm, hdisp]
    decide

/-- Witness for solicitud_propia_conflicto: user 1 requesting their own
available publication (dbPub) and their own unavailable publication (dbG)
both fail with Conflict. -/
theorem solicitud_propia_conflicto_witness :
    respClass (createRequest dbPub 1 (JValue.num 1) (JValue.str "hola")).resp =
      ErrorClass.conflict ∧
    respClass (createRequest dbG 1 (JValue.num 1) (JValue.str "hola")).resp =
      ErrorClass.conflict :=
  ⟨(solicitud_propia_conflicto dbPub 1 (JValue.num 1) (JValue.str "hola") 1
      ⟨1, "data:image/png;base64,AAAA", "disponible", 1⟩
      (by decide) (by decide) (by decide) (by decide) (by decide)).1,
   (solicitud_propia_conflicto dbG 1 (JValue.num 1) (JValue.str "hola") 1
      ⟨1, "data:image/png;base64,AAAA", "no disponible", 1⟩
      (by decide) (by decide) (by decide) (by decide) (by decide)).1⟩

lemma aprobarCascada_solicitudes (db : DB) (sol : Solicitud) :
    (aprobarCascada db sol).solicitudes = db.solicitudes.map (fun s =>
      if s.id = sol.id then { s with estado := "Aprobada" }
      else if s.publicacionId = sol.publicacionId ∧ s.estado = "Pendiente" then
        { s with estado := "Rechazada" }
      else s) := by
  unfold aprobarCascada rechazarOtrasPendientes updatePublicacionEstado updateSolicitudEstado
  simp only [List.map_map]
  apply List.map_congr_left
  intro s _
  by_cases h1 : s.id = sol.id
  · simp [Function.comp, h1]
  · by_cases h2 : s.publicacionId = sol.publicacionId ∧ s.estado = "Pendiente"
    · simp [Function.comp, h1, h2]
    · simp [Function.comp, h1, h2]

lemma aprobarCascada_publicaciones (db : DB) (sol : Solicitud) :
    (aprobarCascada db sol).publicaciones = db.publicaciones.map (fun p =>
      if p.id = sol.publicacionId then { p with estado := "no disponible" } else p) :=
  rfl

lemma aprobarCascada_mascotas (db : DB) (sol : Solicitud) :
    (aprobarCascada db sol).mascotas = db.mascotas :=
  rfl

lemma aprobarCascada_counters (db : DB) (sol : Solicitud) :
    (aprobarCascada db sol).nextPublicacionId = db.nextPublicacionId ∧
    (aprobarCascada db sol).nextMascotaId = db.nextMascotaId ∧
    (aprobarCascada db sol).nextSolicitudId = db.nextSolicitudId :=
  ⟨rfl, rfl, rfl⟩

/-- Claim C2 (amended): approving a not-yet-approved request performs, as
three separate sequential writes (the code wraps them in no transaction),
exactly these state changes: the request becomes "Aprobada", its
publication becomes "no disponible", and every other request on the same
publication that is "Pendiente" becomes "Rechazada" while all other rows
are untouched; exactly one notification is dispatched, to the requester,
after the writes, and none to the auto-rejected siblings. -/
theorem aprobar_efectos (db : DB) (userId : Nat) (idParam : String)
    (solicitudId : Int) (sol : Solicitud) (pub : Publicacion)
    (hparse : parseIntJS idParam = some solicitudId)
    (hfind : findSolicitud db solicitudId = some sol)
    (hpub : findPublicacion db (sol.publicacionId : Int) = some pub)
    (howner : pub.usuarioId = userId)
    (hna : sol.estado ≠ "Aprobada") :
    (actualizarEstadoSolicitud db userId idParam "Aprobada").resp.status = 200 ∧
    (actualizarEstadoSolicitud db userId idParam "Aprobada").db.solicitudes =
      db.solicitudes.map (fun s =>
        if s.id = sol.id then { s with estado := "Aprobada" }
        else if s.publicacionId = sol.publicacionId ∧ s.estado = "Pendiente" then
          { s with estado := "Rechazada" }
        else s) ∧
    (actualizarEstadoSolicitud db userId idParam "Aprobada").db.publicaciones =
      db.publicaciones.map (fun p =>
        if p.id = sol.publicacionId then { p with estado := "no disponible" } else p) ∧
    (actualizarEstadoSolicitud db userId idParam "Aprobada").db.mascotas = db.mascotas ∧
    (actualizarEstadoSolicitud db userId idParam "Aprobada").notifs =
      [⟨sol.usuarioId, "Aprobada"⟩] ∧
    writesOutsideTx (actualizarEstadoSolicitud db userId idParam "Aprobada").trace =
      [.write "solicitud.update" false, .write "publicacion.update" false,
       .write "solicitud.updateMany" false] ∧
    emailsOf (actualizarEstadoSolicitud db userId idParam "Aprobada").trace =
      [.email sol.usuarioId "Aprobada"] ∧
    (actualizarEstadoSolicitud db userId idParam "Aprobada").trace.getLast? =
      some (.email sol.usuarioId "Aprobada") := by
  have hres : actualizarEstadoSolicitud db userId idParam "Aprobada" =
      ⟨⟨200, "Solicitud actualizada a " ++ "Aprobada" ++ " y correo enviado al solicitante."⟩,
        some { sol with estado := "Aprobada" },
        aprobarCascada db sol,
        [⟨sol.usuarioId, "Aprobada"⟩],
        [.read "solicitud.findUnique" false,
         .write "solicitud.update" false, .write "publicacion.update" false,
         .write "solicitud.updateMany" false,
         .email sol.usuarioId "Aprobada"]⟩ := by
    unfold actualizarEstadoSolicitud
    simp only [hparse, hfind, hpub]
    simp [howner, hna, estadosPermitidos]
  rw [hres]
  refine ⟨rfl, ?_, ?_, rfl, rfl, rfl, rfl, rfl⟩
  · exact aprobarCascada_solicitudes db sol
  · exact aprobarCascada_publicaciones db sol

/-- Witness for aprobar_efectos: approving request 1 of dbE. -/
theorem aprobar_efectos_witness :
    (actualizarEstadoSolicitud dbE 1 "1" "Aprobada").resp.status = 200 ∧
    (actualizarEstadoSolicitud dbE 1 "1" "Aprobada").notifs = [⟨2, "Aprobada"⟩] ∧
    writesOutsideTx (actualizarEstadoSolicitud dbE 1 "1" "Aprobada").trace =
      [.write "solicitud.update" false, .write "publicacion.update" false,
       .write "solicitud.updateMany" false] :=
  have h := aprobar_efectos dbE 1 "1" 1 solicitudE1 publicacionE
    (by decide) (by decide) (by decide) (by decide) (by decide)
  ⟨h.1, h.2.2.2.2.1, h.2.2.2.2.2.1⟩

/-- Claim C2 (counterexample to the claim as stated): a successful approval
run issues its three writes outside any transaction block — the trace of
the 200 run on dbE has no call marked as inside a prisma transaction — so
the state changes are not performed within one transaction. -/
theorem aprobar_sin_transaccion :
    (actualizarEstadoSolicitud dbE 1 "1" "Aprobada").resp.status = 200 ∧
    writesOutsideTx (actualizarEstadoSolicitud dbE 1 "1" "Aprobada").trace ≠ [] ∧
    (actualizarEstadoSolicitud dbE 1 "1" "Aprobada").trace.filter
        (fun op => match op with
          | .read _ true => true
          | .write _ true => true
          | _ => false) = [] := by
  decide

/-- Claim C5 (amended): submit checks its preconditions in the stated order
with the first failure winning — presence of both fields and parseInt
success on publicacionId (with no positivity requirement) giving
ValidationError, existence giving NotFound, availability, self-request and
duplicate each giving Conflict — and on success creates and returns the
"Pendiente" request; the store changes exactly when a row is created. -/
theorem submit_precondiciones (db : DB) (userId : Nat) (publicacionId mensaje : JValue) :
    submitOutcome (createRequest db userId publicacionId mensaje) =
      submitSpec db userId publicacionId mensaje ∧
    (createRequest db userId publicacionId mensaje).db =
      submitSpecDB db (submitSpec db userId publicacionId mensaje) := by
  unfold createRequest submitSpec submitOutcome submitSpecDB respClass
  cases h : jsParseInt publicacionId with
  | none => simp
  | some pubId =>
    by_cases h2 : truthy publicacionId = false ∨ truthy mensaje = false
    · simp [h2]
    · cases h3 : findPublicacion db pubId with
      | none => simp [h2, h3]
      | some p =>
        by_cases h4 : p.estado = "disponible"
        · by_cases h5 : p.usuarioId = userId
          · simp [h2, h3, h4, h5]
          · cases h6 : findSolicitudUnique db userId p.id with
            | none => simp [h2, h3, h4, h5, h6]
            | some q => simp [h2, h3, h4, h5, h6]
        · simp [h2, h3, h4]

/-- Claim C5 (counterexample): publicacionId "0" is present and parseInt
accepts it (there is no positivity check), so instead of the
ValidationError the claim requires for a non-positive id, the call reaches
the lookup and fails with NotFound. -/
theorem submit_cero_not_found :
    truthy (JValue.str "0") = true ∧
    jsParseInt (JValue.str "0") = some 0 ∧
    ¬ (0 : Int) > 0 ∧
    respClass (createRequest emptyDB 1 (JValue.str "0") (JValue.str "hola")).resp =
      ErrorClass.notFound ∧
    ErrorClass.notFound ≠ ErrorClass.validationError := by
  decide

lemma estado_invalido_validacion {b : UpdateBody} {e : String}
    (he : b.estado = some e) (h1 : e ≠ "disponible") (h2 : e ≠ "adoptado") :
    updatePublicationValidations b = false := by
  unfold updatePublicationValidations
  have hc : (["disponible", "adoptado"].contains e) = false := by simp [h1, h2]
  simp only [he, hc, Bool.and_false, Bool.false_and]

lemma estado_valido_de_validacion {b : UpdateBody} {e : String}
    (hv : updatePublicationValidations b = true) (he : b.estado = some e) :
    e = "disponible" ∨ e = "adoptado" := by
  unfold updatePublicationValidations at hv
  rw [he] at hv
  simp only [Bool.and_eq_true] at hv
  simpa using hv.1.2

lemma updatePublication_publicaciones_cases (db : DB) (userId : Nat) (idParam : String)
    (b : UpdateBody) :
    (updatePublication db userId idParam b).db.publicaciones = db.publicaciones ∨
    (updatePublicationValidations b = true ∧
      ∃ pub ∈ db.publicaciones,
        (updatePublication db userId idParam b).db.publicaciones =
          db.publicaciones.map (fun p =>
            if p.id = pub.id then
              { pub with foto := b.foto.getD pub.foto, estado := b.estado.getD pub.estado }
            else p)) := by
  unfold updatePublication
  cases hv : updatePublicationValidations b with
  | false => simp
  | true =>
    simp only [Bool.true_eq_false, if_false]
    cases hp : parseIntJS idParam with
    | none => simp
    | some pubId =>
      simp only []
      by_cases hu : userId = 0
      · simp [hu]
      · simp only [hu, if_false]
        cases hf : findPublicacion db pubId with
        | none => simp
        | some pub =>
          simp only []
          by_cases ho : pub.usuarioId ≠ userId
          · simp [ho]
          · simp only [ho, if_false]
            refine Or.inr ⟨by trivial, pub, findPublicacion_mem hf, ?_⟩
            cases (db.mascotas.filter (fun m => m.publicacionId == pub.id)).head? with
            | none => rfl
            | some m => rfl

/-- An edit body that tries to write the cascade's "no disponible" value. -/
def cuerpoEditarNoDisponible : UpdateBody :=
  ⟨"Firulais", "Chico", "Macho", "Perro", "Un perro", none, some "no disponible"⟩

/-- Claim C10: when the edit operation is given an availability value it
succeeds only for "disponible" or "adoptado" — any other value, the
cascade's "no disponible" included, is rejected as a ValidationError with
no mutation; consequently an edit never writes "no disponible" (any
"no disponible" publication after an edit was already "no disponible"
before it); when no availability value is supplied the publication's
availability (and its photo, when that is also omitted) is unchanged; and
edit can introduce the third state "adoptado". -/
theorem editar_disponibilidad (db : DB) (userId : Nat) (idParam : String) (b : UpdateBody) :
    (∀ e, b.estado = some e → e ≠ "disponible" → e ≠ "adoptado" →
      updatePublication db userId idParam b = ⟨⟨400, "errores"⟩, db, []⟩ ∧
      respClass ⟨400, "errores"⟩ = ErrorClass.validationError) ∧
    (∀ p ∈ (updatePublication db userId idParam b).db.publicaciones,
      p.estado = "no disponible" →
      ∃ q ∈ db.publicaciones, q.id = p.id ∧ q.estado = "no disponible") ∧
    (b.estado = none →
      ∀ p ∈ (updatePublication db userId idParam b).db.publicaciones,
        ∃ q ∈ db.publicaciones, q.id = p.id ∧ p.estado = q.estado ∧
          (b.foto = none → p.foto = q.foto)) ∧
    ((updatePublication dbAprob1 1 "1" cuerpoEditarAdoptado).resp.status = 200 ∧
      (updatePublication dbAprob1 1 "1" cuerpoEditarAdoptado).db.publicaciones =
        [⟨1, "data:image/png;base64,AAAA", "adoptado", 1⟩]) := by
  refine ⟨?_, ?_, ?_, by decide⟩
  · intro e he h1 h2
    have hval := estado_invalido_validacion he h1 h2
    refine ⟨?_, by decide⟩
    unfold updatePublication
    simp [hval]
  · intro p hp hnd
    rcases updatePublication_publicaciones_cases db userId idParam b with
      hsame | ⟨hv, pub, hpubmem, heq⟩
    · rw [hsame] at hp
      exact ⟨p, hp, rfl, hnd⟩
    · rw [heq] at hp
      rcases List.mem_map.mp hp with ⟨q, hq, hpq⟩
      by_cases hid : q.id = pub.id
      · rw [if_pos hid] at hpq
        subst hpq
        cases hbe : b.estado with
        | none =>
          refine ⟨pub, hpubmem, rfl, ?_⟩
          rw [hbe] at hnd
          exact hnd
        | some e =>
          exfalso
          rw [hbe] at hnd
          rcases estado_valido_de_validacion hv hbe with h | h <;> rw [h] at hnd <;>
            simp at hnd
      · rw [if_neg hid] at hpq
        subst hpq
        exact ⟨q, hq, rfl, hnd⟩
  · intro hbe p hp
    rcases updatePublication_publicaciones_cases db userId idParam b with
      hsame | ⟨hv, pub, hpubmem, heq⟩
    · rw [hsame] at hp
      exact ⟨p, hp, rfl, rfl, fun _ => rfl⟩
    · rw [heq] at hp
      rcases List.mem_map.mp hp with ⟨q, hq, hpq⟩
      by_cases hid : q.id = pub.id
      · rw [if_pos hid] at hpq
        subst hpq
        refine ⟨pub, hpubmem, rfl, ?_, ?_⟩
        · simp [hbe]
        · intro hbf
          simp [hbf]
      · rw [if_neg hid] at hpq
        subst hpq
        exact ⟨q, hq, rfl, rfl, fun _ => rfl⟩

/-- Witness for editar_disponibilidad: editing with estado "no disponible"
is rejected with no mutation, and the "no disponible" publication surviving
a neutral edit was already "no disponible". -/
theorem editar_disponibilidad_witness :
    updatePublication dbAprob1 1 "1" cuerpoEditarNoDisponible =
      ⟨⟨400, "errores"⟩, dbAprob1, []⟩ ∧
    ∃ q ∈ dbAprob1.publicaciones,
      q.id = (⟨1, "data:image/png;base64,AAAA", "no disponible", 1⟩ : Publicacion).id ∧
      q.estado = "no disponible" := by
  constructor
  · exact ((editar_disponibilidad dbAprob1 1 "1" cuerpoEditarNoDisponible).1
      "no disponible" rfl (by decide) (by decide)).1
  · exact (editar_disponibilidad dbAprob1 1 "1" cuerpoEditarNeutro).2.1
      ⟨1, "data:image/png;base64,AAAA", "no disponible", 1⟩ (by decide) (by decide)

lemma createRequest_db_cases (db : DB) (userId : Nat) (publicacionId mensaje : JValue) :
    (createRequest db userId publicacionId mensaje).db = db ∨
    ∃ pub ∈ db.publicaciones,
      (createRequest db userId publicacionId mensaje).db =
        { db with
          solicitudes := db.solicitudes ++
            [⟨db.nextSolicitudId, "Pendiente", jvString mensaje, userId, pub.id⟩],
          nextSolicitudId := db.nextSolicitudId + 1 } := by
  unfold createRequest
  cases hp : jsParseInt publicacionId with
  | none => exact Or.inl rfl
  | some pubId =>
    by_cases hT : truthy publicacionId = false ∨ truthy mensaje = false
    · simp [hT]
    · simp only [if_neg hT]
      cases hf : findPublicacion db pubId with
      | none => exact Or.inl rfl
      | some pub =>
        simp only []
        by_cases hd : pub.estado ≠ "disponible"
        · simp [hd]
        · simp only [if_neg hd]
          by_cases ho : pub.usuarioId = userId
          · simp [ho]
          · simp only [if_neg ho]
            cases hdup : findSolicitudUnique db userId pub.id with
            | some s => exact Or.inl rfl
            | none => exact Or.inr ⟨pub, findPublicacion_mem hf, rfl⟩

lemma deleteRequest_db_cases (db : DB) (userId : Nat) (idParam : String) :
    (deleteRequest db userId idParam).db = db ∨
    ∃ sol ∈ db.solicitudes, sol.estado = "Pendiente" ∧
      (deleteRequest db userId idParam).db =
        { db with solicitudes := db.solicitudes.filter (fun s => s.id != sol.id) } := by
  unfold deleteRequest
  cases hp : parseIntJS idParam with
  | none => exact Or.inl rfl
  | some solicitudId =>
    simp only []
    cases hf : findSolicitud db solicitudId with
    | none => exact Or.inl rfl
    | some sol =>
      simp only []
      by_cases ho : sol.usuarioId ≠ userId
      · simp [ho]
      · simp only [if_neg ho]
        by_cases hpend : sol.estado ≠ "Pendiente"
        · simp [hpend]
        · simp only [if_neg hpend]
          exact Or.inr ⟨sol, findSolicitud_mem hf, not_not.mp hpend, rfl⟩

lemma actualizar_db_cases (db : DB) (userId : Nat) (idParam nuevoEstado : String) :
    (actualizarEstadoSolicitud db userId idParam nuevoEstado).db = db ∨
    (∃ sol ∈ db.solicitudes, sol.estado ≠ "Aprobada" ∧
      (actualizarEstadoSolicitud db userId idParam nuevoEstado).db = aprobarCascada db sol) ∨
    (∃ sol ∈ db.solicitudes, sol.estado ≠ "Aprobada" ∧ nuevoEstado ≠ "Aprobada" ∧
      (actualizarEstadoSolicitud db userId idParam nuevoEstado).db =
        updateSolicitudEstado db sol.id nuevoEstado) := by
  unfold actualizarEstadoSolicitud
  cases hp : parseIntJS idParam with
  | none => exact Or.inl rfl
  | some solicitudId =>
    simp only []
    by_cases hperm : estadosPermitidos.contains nuevoEstado = false
    · rw [hperm]
      simp
    · simp only [if_neg hperm]
      cases hf : findSolicitud db solicitudId with
      | none => exact Or.inl rfl
      | some sol =>
        simp only []
        cases hfp : findPublicacion db (sol.publicacionId : Int) with
        | none => exact Or.inl rfl
        | some pub =>
          simp only []
          by_cases ho : pub.usuarioId ≠ userId
          · simp [ho]
          · simp only [if_neg ho]
            by_cases ha : sol.estado = "Aprobada"
            · simp [ha]
            · simp only [if_neg ha]
              by_cases he : sol.estado = nuevoEstado
              · simp [he]
              · simp only [if_neg he]
                by_cases hap : nuevoEstado = "Aprobada"
                · simp only [if_pos hap]
                  exact Or.inr (Or.inl ⟨sol, findSolicitud_mem hf, ha, rfl⟩)
                · simp only [if_neg hap]
                  exact Or.inr (Or.inr ⟨sol, findSolicitud_mem hf, ha, hap, rfl⟩)

lemma createPublication_db_cases (db : DB) (userId : Nat) (b : CreateBody) :
    (createPublication db userId b).db = db ∨
    (createPublication db userId b).db =
      { db with
        publicaciones :=
          db.publicaciones ++ [⟨db.nextPublicacionId, b.foto, "disponible", userId⟩],
        mascotas := db.mascotas ++
          [⟨db.nextMascotaId, b.nombre, b.sexo, b.tipo, b.tamano, b.descripcion,
            db.nextPublicacionId⟩],
        nextPublicacionId := db.nextPublicacionId + 1,
        nextMascotaId := db.nextMascotaId + 1 } := by
  unfold createPublication
  by_cases hv : createPublicationValidations b = false
  · simp [hv]
  · simp only [if_neg hv]
    by_cases hu : userId = 0
    · simp [hu]
    · simp only [if_neg hu]
      right
      trivial

lemma deletePublication_db_cases (db : DB) (userId : Nat) (idParam : String) :
    (deletePublication db userId idParam).db = db ∨
    ∃ pub ∈ db.publicaciones,
      (deletePublication db userId idParam).db =
        { db with
          publicaciones := db.publicaciones.filter (fun p => p.id != pub.id),
          mascotas := db.mascotas.filter (fun m => m.publicacionId != pub.id),
          solicitudes := db.solicitudes.filter (fun s => s.publicacionId != pub.id) } := by
  unfold deletePublication
  cases hp : parseIntJS idParam with
  | none => exact Or.inl rfl
  | some pubId =>
    simp only []
    by_cases hu : userId = 0
    · simp [hu]
    · simp only [if_neg hu]
      cases hf : findPublicacion db pubId with
      | none => exact Or.inl rfl
      | some pub =>
        simp only []
        by_cases ho : pub.usuarioId ≠ userId
        · simp [ho]
        · simp only [if_neg ho]
          exact Or.inr ⟨pub, findPublicacion_mem hf, rfl⟩

lemma updatePublication_resto (db : DB) (userId : Nat) (idParam : String) (b : UpdateBody) :
    (updatePublication db userId idParam b).db.solicitudes = db.solicitudes ∧
    (updatePublication db userId idParam b).db.nextPublicacionId = db.nextPublicacionId ∧
    (updatePublication db userId idParam b).db.nextSolicitudId = db.nextSolicitudId := by
  unfold updatePublication
  cases hv : updatePublicationValidations b with
  | false => exact ⟨rfl, rfl, rfl⟩
  | true =>
    simp only [Bool.true_eq_false, if_false]
    cases hp : parseIntJS idParam with
    | none => exact ⟨rfl, rfl, rfl⟩
    | some pubId =>
      simp only []
      by_cases hu : userId = 0
      · simp [hu]
      · simp only [hu, if_false]
        cases hf : findPublicacion db pubId with
        | none => exact ⟨rfl, rfl, rfl⟩
        | some pub =>
          simp only []
          by_cases ho : pub.usuarioId ≠ userId
          · simp [ho]
          · simp only [ho, if_false]
            cases (db.mascotas.filter (fun m => m.publicacionId == pub.id)).head? with
            | none => exact ⟨rfl, rfl, rfl⟩
            | some m => exact ⟨rfl, rfl, rfl⟩

lemma sol_id_inj {db : DB} (hnd : (db.solicitudes.map Solicitud.id).Nodup)
    {s t : Solicitud} (hs : s ∈ db.solicitudes) (ht : t ∈ db.solicitudes)
    (h : s.id = t.id) : s = t :=
  List.inj_on_of_nodup_map hnd hs ht h

lemma pub_id_inj {db : DB} (hnd : (db.publicaciones.map Publicacion.id).Nodup)
    {p q : Publicacion} (hp : p ∈ db.publicaciones) (hq : q ∈ db.publicaciones)
    (h : p.id = q.id) : p = q :=
  List.inj_on_of_nodup_map hnd hp hq h

/-- The availability invariant only observes each publicacion through
(id, estado) and each solicitud through (publicacionId, estado): two
stores equal under these projections satisfy it together. -/
lemma pubInvariant_of_pairs (db1 db2 : DB)
    (hp : db2.publicaciones.map (fun p => (p.id, p.estado)) =
      db1.publicaciones.map (fun p => (p.id, p.estado)))
    (hs : db2.solicitudes.map (fun s => (s.publicacionId, s.estado)) =
      db1.solicitudes.map (fun s => (s.publicacionId, s.estado)))
    (h1 : pubInvariant db1) : pubInvariant db2 := by
  intro p hp2
  have hpair : (p.id, p.estado) ∈
      db1.publicaciones.map (fun p => (p.id, p.estado)) := by
    rw [← hp]
    exact List.mem_map_of_mem _ hp2
  obtain ⟨q, hq, hqe⟩ := List.mem_map.mp hpair
  obtain ⟨hid, hest⟩ : q.id = p.id ∧ q.estado = p.estado := Prod.mk.injEq .. ▸ hqe
  have base := h1 q hq
  constructor
  · intro hnd
    obtain ⟨s, hs1, hs2, hs3⟩ := base.mp (by rw [hest]; exact hnd)
    have hmem : (s.publicacionId, s.estado) ∈
        db2.solicitudes.map (fun s => (s.publicacionId, s.estado)) := by
      rw [hs]
      exact List.mem_map_of_mem _ hs1
    obtain ⟨t, ht, hte⟩ := List.mem_map.mp hmem
    obtain ⟨h1t, h2t⟩ : t.publicacionId = s.publicacionId ∧ t.estado = s.estado :=
      Prod.mk.injEq .. ▸ hte
    exact ⟨t, ht, by rw [h1t, hs2, hid], by rw [h2t, hs3]⟩
  · rintro ⟨s, hs1, hs2, hs3⟩
    have hmem : (s.publicacionId, s.estado) ∈
        db1.solicitudes.map (fun s => (s.publicacionId, s.estado)) := by
      rw [← hs]
      exact List.mem_map_of_mem _ hs1
    obtain ⟨t, ht, hte⟩ := List.mem_map.mp hmem
    obtain ⟨h1t, h2t⟩ : t.publicacionId = s.publicacionId ∧ t.estado = s.estado :=
      Prod.mk.injEq .. ▸ hte
    have : q.estado = "no disponible" :=
      base.mpr ⟨t, ht, by rw [h1t, hs2, hid], by rw [h2t, hs3]⟩
    rw [← hest]
    exact this

/-- Well-formedness also only observes ids, foreign keys and the two
counters. -/
lemma WF_of_projections (db1 db2 : DB)
    (hp : db2.publicaciones.map Publicacion.id = db1.publicaciones.map Publicacion.id)
    (hs : db2.solicitudes.map Solicitud.id = db1.solicitudes.map Solicitud.id)
    (hsp : db2.solicitudes.map Solicitud.publicacionId =
      db1.solicitudes.map Solicitud.publicacionId)
    (hc1 : db2.nextPublicacionId = db1.nextPublicacionId)
    (hc2 : db2.nextSolicitudId = db1.nextSolicitudId)
    (h : WF db1) : WF db2 := by
  obtain ⟨h1, h2, h3, h4, h5⟩ := h
  refine ⟨?_, ?_, ?_, ?_, ?_⟩
  · intro p hp2
    have hmem : p.id ∈ db1.publicaciones.map Publicacion.id := by
      rw [← hp]
      exact List.mem_map_of_mem _ hp2
    obtain ⟨q, hq, hqe⟩ := List.mem_map.mp hmem
    rw [hc1, ← hqe]
    exact h1 q hq
  · rw [hp]
    exact h2
  · intro s hs2
    have hmem : s.id ∈ db1.solicitudes.map Solicitud.id := by
      rw [← hs]
      exact List.mem_map_of_mem _ hs2
    obtain ⟨t, ht, hte⟩ := List.mem_map.mp hmem
    rw [hc2, ← hte]
    exact h3 t ht
  · rw [hs]
    exact h4
  · intro s hs2
    have hmem : s.publicacionId ∈ db1.solicitudes.map Solicitud.publicacionId := by
      rw [← hsp]
      exact List.mem_map_of_mem _ hs2
    obtain ⟨t, ht, hte⟩ := List.mem_map.mp hmem
    obtain ⟨p, hp1, hpe⟩ := h5 t ht
    have hpm : p.id ∈ db2.publicaciones.map Publicacion.id := by
      rw [hp]
      exact List.mem_map_of_mem _ hp1
    obtain ⟨q, hq, hqe⟩ := List.mem_map.mp hpm
    exact ⟨q, hq, by rw [hqe, hpe, hte]⟩

/-- Combined inductive invariant: structural well-formedness plus the
availability invariant. -/
def Inv (db : DB) : Prop := WF db ∧ pubInvariant db

lemma updateSolicitudEstado_solicitudes (db : DB) (id : Nat) (estado : String) :
    (updateSolicitudEstado db id estado).solicitudes =
      db.solicitudes.map (fun s => if s.id = id then { s with estado := estado } else s) :=
  rfl

lemma updateSolicitudEstado_publicaciones (db : DB) (id : Nat) (estado : String) :
    (updateSolicitudEstado db id estado).publicaciones = db.publicaciones :=
  rfl

lemma WF_filter_solicitud (db : DB) (q : Solicitud → Bool) (h : WF db) :
    WF { db with solicitudes := db.solicitudes.filter q } := by
  obtain ⟨h1, h2, h3, h4, h5⟩ := h
  refine ⟨h1, h2, ?_, ?_, ?_⟩
  · intro s hs
    exact h3 s (List.mem_filter.mp hs).1
  · exact List.Nodup.sublist ((List.filter_sublist _).map _) h4
  · intro s hs
    exact h5 s (List.mem_filter.mp hs).1

lemma WF_updateSolicitudEstado (db : DB) (id : Nat) (estado : String) (h : WF db) :
    WF (updateSolicitudEstado db id estado) := by
  refine WF_of_projections db _ rfl ?_ ?_ rfl rfl h
  · rw [updateSolicitudEstado_solicitudes, List.map_map]
    refine List.map_congr_left fun s _ => ?_
    by_cases hs : s.id = id <;> simp [hs]
  · rw [updateSolicitudEstado_solicitudes, List.map_map]
    refine List.map_congr_left fun s _ => ?_
    by_cases hs : s.id = id <;> simp [hs]

lemma WF_aprobarCascada (db : DB) (sol : Solicitud) (h : WF db) :
    WF (aprobarCascada db sol) := by
  refine WF_of_projections db _ ?_ ?_ ?_ rfl rfl h
  · rw [aprobarCascada_publicaciones, List.map_map]
    refine List.map_congr_left fun p _ => ?_
    by_cases hid : p.id = sol.publicacionId <;> simp [hid]
  · rw [aprobarCascada_solicitudes, List.map_map]
    refine List.map_congr_left fun s _ => ?_
    by_cases h1 : s.id = sol.id
    · simp [h1]
    · by_cases h2 : s.publicacionId = sol.publicacionId ∧ s.estado = "Pendiente" <;>
        simp [h1, h2]
  · rw [aprobarCascada_solicitudes, List.map_map]
    refine List.map_congr_left fun s _ => ?_
    by_cases h1 : s.id = sol.id
    · simp [h1]
    · by_cases h2 : s.publicacionId = sol.publicacionId ∧ s.estado = "Pendiente" <;>
        simp [h1, h2]

lemma WF_deletePublication_filtros (db : DB) (pub : Publicacion) (h : WF db) :
    WF { db with
      publicaciones := db.publicaciones.filter (fun p => p.id != pub.id),
      mascotas := db.mascotas.filter (fun m => m.publicacionId != pub.id),
      solicitudes := db.solicitudes.filter (fun s => s.publicacionId != pub.id) } := by
  obtain ⟨h1, h2, h3, h4, h5⟩ := h
  refine ⟨?_, ?_, ?_, ?_, ?_⟩
  · intro p hp
    exact h1 p (List.mem_filter.mp hp).1
  · exact List.Nodup.sublist ((List.filter_sublist _).map _) h2
  · intro s hs
    exact h3 s (List.mem_filter.mp hs).1
  · exact List.Nodup.sublist ((List.filter_sublist _).map _) h4
  · intro s hs
    obtain ⟨hs1, hsb⟩ := List.mem_filter.mp hs
    obtain ⟨p, hpm, hpe⟩ := h5 s hs1
    refine ⟨p, List.mem_filter.mpr ⟨hpm, ?_⟩, hpe⟩
    rw [hpe]
    exact hsb

lemma WF_append_solicitud (db : DB) (pub : Publicacion) (hpub : pub ∈ db.publicaciones)
    (m : String) (u : Nat) (h : WF db) :
    WF { db with
      solicitudes := db.solicitudes ++ [⟨db.nextSolicitudId, "Pendiente", m, u, pub.id⟩],
      nextSolicitudId := db.nextSolicitudId + 1 } := by
  obtain ⟨h1, h2, h3, h4, h5⟩ := h
  refine ⟨h1, h2, ?_, ?_, ?_⟩
  · intro s hs
    rcases List.mem_append.mp hs with hm | hm
    · exact Nat.lt_succ_of_lt (h3 s hm)
    · rw [List.mem_singleton.mp hm]
      exact Nat.lt_succ_self _
  · rw [List.map_append]
    refine List.Nodup.append h4 (List.nodup_singleton _) ?_
    intro a ha hb
    obtain ⟨s, hsl, rfl⟩ := List.mem_map.mp ha
    simp only [List.map_cons, List.map_nil, List.mem_singleton] at hb
    have hlt := h3 s hsl
    rw [hb] at hlt
    exact absurd hlt (lt_irrefl _)
  · intro s hs
    rcases List.mem_append.mp hs with hm | hm
    · exact h5 s hm
    · rw [List.mem_singleton.mp hm]
      exact ⟨pub, hpub, rfl⟩

lemma WF_createPublication_append (db : DB) (userId : Nat) (b : CreateBody) (h : WF db) :
    WF { db with
      publicaciones := db.publicaciones ++ [⟨db.nextPublicacionId, b.foto, "disponible", userId⟩],
      mascotas := db.mascotas ++
        [⟨db.nextMascotaId, b.nombre, b.sexo, b.tipo, b.tamano, b.descripcion,
          db.nextPublicacionId⟩],
      nextPublicacionId := db.nextPublicacionId + 1,
      nextMascotaId := db.nextMascotaId + 1 } := by
  obtain ⟨h1, h2, h3, h4, h5⟩ := h
  refine ⟨?_, ?_, h3, h4, ?_⟩
  · intro p hp
    rcases List.mem_append.mp hp with hm | hm
    · exact Nat.lt_succ_of_lt (h1 p hm)
    · rw [List.mem_singleton.mp hm]
      exact Nat.lt_succ_self _
  · rw [List.map_append]
    refine List.Nodup.append h2 (List.nodup_singleton _) ?_
    intro a ha hb
    obtain ⟨p, hpl, rfl⟩ := List.mem_map.mp ha
    simp only [List.map_cons, List.map_nil, List.mem_singleton] at hb
    have hlt := h1 p hpl
    rw [hb] at hlt
    exact absurd hlt (lt_irrefl _)
  · intro s hs
    obtain ⟨p, hpm, hpe⟩ := h5 s hs
    exact ⟨p, List.mem_append_left _ hpm, hpe⟩

lemma pubInvariant_aprobarCascada (db : DB) (sol : Solicitud) (hsol : sol ∈ db.solicitudes)
    (hsnd : (db.solicitudes.map Solicitud.id).Nodup)
    (hinv : pubInvariant db) : pubInvariant (aprobarCascada db sol) := by
  intro p2 hp2
  rw [aprobarCascada_publicaciones] at hp2
  rw [aprobarCascada_solicitudes]
  obtain ⟨p, hp, rfl⟩ := List.mem_map.mp hp2
  set F : Solicitud → Solicitud := fun s =>
    if s.id = sol.id then { s with estado := "Aprobada" }
    else if s.publicacionId = sol.publicacionId ∧ s.estado = "Pendiente" then
      { s with estado := "Rechazada" }
    else s with hF
  by_cases hid : p.id = sol.publicacionId
  · rw [if_pos hid]
    have hFsol : F sol = { sol with estado := "Aprobada" } := by simp [hF]
    constructor
    · intro _
      refine ⟨F sol, List.mem_map_of_mem F hsol, ?_, ?_⟩
      · rw [hFsol]
        exact hid.symm
      · rw [hFsol]
    · intro _
      rfl
  · rw [if_neg hid]
    have base := hinv p hp
    constructor
    · intro hnd
      obtain ⟨s, hs1, hs2, hs3⟩ := base.mp hnd
      have hsne : s.id ≠ sol.id := by
        intro hEq
        have hseq : s = sol := sol_id_inj hsnd hs1 hsol hEq
        rw [hseq] at hs2
        exact hid hs2.symm
      have hcond : ¬(s.publicacionId = sol.publicacionId ∧ s.estado = "Pendiente") := by
        rintro ⟨hc, -⟩
        rw [hs2] at hc
        exact hid hc
      have hFs : F s = s := by simp [hF, hsne, hcond]
      refine ⟨s, ?_, hs2, hs3⟩
      rw [← hFs]
      exact List.mem_map_of_mem F hs1
    · rintro ⟨s2, hs2mem, hs2pid, hs2est⟩
      obtain ⟨s, hs1, rfl⟩ := List.mem_map.mp hs2mem
      by_cases h1 : s.id = sol.id
      · exfalso
        have hFs : F s = { s with estado := "Aprobada" } := by simp [hF, h1]
        have hseq : s = sol := sol_id_inj hsnd hs1 hsol h1
        rw [hFs] at hs2pid
        rw [hseq] at hs2pid
        exact hid hs2pid.symm
      · by_cases h2 : s.publicacionId = sol.publicacionId ∧ s.estado = "Pendiente"
        · exfalso
          have hFs : F s = { s with estado := "Rechazada" } := by simp [hF, h1, h2]
          rw [hFs] at hs2est
          simp at hs2est
        · have hFs : F s = s := by simp [hF, h1, h2]
          rw [hFs] at hs2pid hs2est
          exact base.mpr ⟨s, hs1, hs2pid, hs2est⟩

lemma pubInvariant_updateSolicitudEstado (db : DB) (sol : Solicitud) (nuevoEstado : String)
    (hsol : sol ∈ db.solicitudes) (hna : sol.estado ≠ "Aprobada")
    (hne : nuevoEstado ≠ "Aprobada")
    (hsnd : (db.solicitudes.map Solicitud.id).Nodup)
    (hinv : pubInvariant db) : pubInvariant (updateSolicitudEstado db sol.id nuevoEstado) := by
  intro p hp
  rw [updateSolicitudEstado_publicaciones] at hp
  rw [updateSolicitudEstado_solicitudes]
  set H : Solicitud → Solicitud := fun s =>
    if s.id = sol.id then { s with estado := nuevoEstado } else s with hH
  have base := hinv p hp
  constructor
  · intro hnd
    obtain ⟨s, hs1, hs2, hs3⟩ := base.mp hnd
    have hsne : s.id ≠ sol.id := by
      intro hEq
      have hseq : s = sol := sol_id_inj hsnd hs1 hsol hEq
      rw [hseq] at hs3
      exact hna hs3
    have hHs : H s = s := by simp [hH, hsne]
    refine ⟨s, ?_, hs2, hs3⟩
    rw [← hHs]
    exact List.mem_map_of_mem H hs1
  · rintro ⟨s2, hs2mem, hs2pid, hs2est⟩
    obtain ⟨s, hs1, rfl⟩ := List.mem_map.mp hs2mem
    by_cases h1 : s.id = sol.id
    · exfalso
      have hHs : H s = { s with estado := nuevoEstado } := by simp [hH, h1]
      rw [hHs] at hs2est
      exact hne hs2est
    · have hHs : H s = s := by simp [hH, h1]
      rw [hHs] at hs2pid hs2est
      exact base.mpr ⟨s, hs1, hs2pid, hs2est⟩

lemma pubInvariant_filter_solicitud (db : DB) (sol : Solicitud)
    (hsol : sol ∈ db.solicitudes) (hpend : sol.estado = "Pendiente")
    (hsnd : (db.solicitudes.map Solicitud.id).Nodup)
    (hinv : pubInvariant db) :
    pubInvariant { db with solicitudes := db.solicitudes.filter (fun s => s.id != sol.id) } := by
  intro p hp
  have base := hinv p hp
  constructor
  · intro hnd
    obtain ⟨s, hs1, hs2, hs3⟩ := base.mp hnd
    have hsne : s.id ≠ sol.id := by
      intro hEq
      have hseq : s = sol := sol_id_inj hsnd hs1 hsol hEq
      rw [hseq, hpend] at hs3
      exact absurd hs3 (by decide)
    refine ⟨s, List.mem_filter.mpr ⟨hs1, ?_⟩, hs2, hs3⟩
    simpa using hsne
  · rintro ⟨s, hmem, h2, h3⟩
    exact base.mpr ⟨s, (List.mem_filter.mp hmem).1, h2, h3⟩

lemma pubInvariant_deletePublication_filtros (db : DB) (pub : Publicacion)
    (hinv : pubInvariant db) :
    pubInvariant { db with
      publicaciones := db.publicaciones.filter (fun p => p.id != pub.id),
      mascotas := db.mascotas.filter (fun m => m.publicacionId != pub.id),
      solicitudes := db.solicitudes.filter (fun s => s.publicacionId != pub.id) } := by
  intro p hp
  obtain ⟨hp1, hp2⟩ := List.mem_filter.mp hp
  have hpne : p.id ≠ pub.id := by simpa using hp2
  have base := hinv p hp1
  constructor
  · intro hnd
    obtain ⟨s, hs1, hs2, hs3⟩ := base.mp hnd
    refine ⟨s, List.mem_filter.mpr ⟨hs1, ?_⟩, hs2, hs3⟩
    rw [hs2]
    simpa using hpne
  · rintro ⟨s, hmem, h2, h3⟩
    exact base.mpr ⟨s, (List.mem_filter.mp hmem).1, h2, h3⟩

lemma pubInvariant_append_solicitud (db : DB) (pub : Publicacion)
    (_hpub : pub ∈ db.publicaciones) (m : String) (u : Nat)
    (hinv : pubInvariant db) :
    pubInvariant { db with
      solicitudes := db.solicitudes ++ [⟨db.nextSolicitudId, "Pendiente", m, u, pub.id⟩],
      nextSolicitudId := db.nextSolicitudId + 1 } := by
  intro p hp
  have base := hinv p hp
  constructor
  · intro hnd
    obtain ⟨s, hs1, hs2, hs3⟩ := base.mp hnd
    exact ⟨s, List.mem_append_left _ hs1, hs2, hs3⟩
  · rintro ⟨s, hs1, hs2, hs3⟩
    rcases List.mem_append.mp hs1 with hm | hm
    · exact base.mpr ⟨s, hm, hs2, hs3⟩
    · rw [List.mem_singleton.mp hm] at hs3
      simp at hs3

lemma pubInvariant_createPublication_append (db : DB) (userId : Nat) (b : CreateBody)
    (hwf : WF db) (hinv : pubInvariant db) :
    pubInvariant { db with
      publicaciones := db.publicaciones ++ [⟨db.nextPublicacionId, b.foto, "disponible", userId⟩],
      mascotas := db.mascotas ++
        [⟨db.nextMascotaId, b.nombre, b.sexo, b.tipo, b.tamano, b.descripcion,
          db.nextPublicacionId⟩],
      nextPublicacionId := db.nextPublicacionId + 1,
      nextMascotaId := db.nextMascotaId + 1 } := by
  intro p hp
  rcases List.mem_append.mp hp with hm | hm
  · exact hinv p hm
  · rw [List.mem_singleton.mp hm]
    constructor
    · intro hnd
      simp at hnd
    · rintro ⟨s, hs1, hs2, hs3⟩
      obtain ⟨q, hq, hqe⟩ := hwf.2.2.2.2 s hs1
      have hlt := hwf.1 q hq
      rw [hqe, hs2] at hlt
      exact absurd hlt (lt_irrefl _)

lemma inv_updatePublication_none (db : DB) (userId : Nat) (idParam : String) (b : UpdateBody)
    (hbe : b.estado = none) (hInv : Inv db) :
    Inv ((updatePublication db userId idParam b).db) := by
  obtain ⟨hwf, hinv⟩ := hInv
  obtain ⟨hsols, hc1, hc2⟩ := updatePublication_resto db userId idParam b
  rcases updatePublication_publicaciones_cases db userId idParam b with
    hsame | ⟨hv, pub, hmem, heq⟩
  · constructor
    · exact WF_of_projections db _ (by rw [hsame]) (by rw [hsols]) (by rw [hsols]) hc1 hc2 hwf
    · exact pubInvariant_of_pairs db _ (by rw [hsame]) (by rw [hsols]) hinv
  · constructor
    · refine WF_of_projections db _ ?_ (by rw [hsols]) (by rw [hsols]) hc1 hc2 hwf
      rw [heq, List.map_map]
      refine List.map_congr_left fun p _ => ?_
      by_cases hid : p.id = pub.id <;> simp [hid]
    · refine pubInvariant_of_pairs db _ ?_ (by rw [hsols]) hinv
      rw [heq, List.map_map]
      refine List.map_congr_left fun p hp => ?_
      by_cases hid : p.id = pub.id
      · have hpq : p = pub := pub_id_inj hwf.2.1 hp hmem hid
        subst hpq
        simp [hbe]
      · simp [hid]

lemma inv_emptyDB : Inv emptyDB := by
  constructor
  · refine ⟨?_, ?_, ?_, ?_, ?_⟩ <;> simp [emptyDB]
  · intro p hp
    simp [emptyDB] at hp

lemma inv_stepSinEstadoEdit {db db2 : DB} (h : StepSinEstadoEdit db db2) (hInv : Inv db) :
    Inv db2 := by
  cases h with
  | createPub userId b =>
    rcases createPublication_db_cases db userId b with hsame | happ
    · rw [hsame]
      exact hInv
    · rw [happ]
      exact ⟨WF_createPublication_append db userId b hInv.1,
        pubInvariant_createPublication_append db userId b hInv.1 hInv.2⟩
  | updatePub userId idParam b hbe =>
    exact inv_updatePublication_none db userId idParam b hbe hInv
  | deletePub userId idParam =>
    rcases deletePublication_db_cases db userId idParam with hsame | ⟨pub, hmem, heq⟩
    · rw [hsame]
      exact hInv
    · rw [heq]
      exact ⟨WF_deletePublication_filtros db pub hInv.1,
        pubInvariant_deletePublication_filtros db pub hInv.2⟩
  | createReq userId publicacionId mensaje =>
    rcases createRequest_db_cases db userId publicacionId mensaje with hsame | ⟨pub, hmem, heq⟩
    · rw [hsame]
      exact hInv
    · rw [heq]
      exact ⟨WF_append_solicitud db pub hmem _ _ hInv.1,
        pubInvariant_append_solicitud db pub hmem _ _ hInv.2⟩
  | deleteReq userId idParam =>
    rcases deleteRequest_db_cases db userId idParam with hsame | ⟨sol, hmem, hpend, heq⟩
    · rw [hsame]
      exact hInv
    · rw [heq]
      exact ⟨WF_filter_solicitud db _ hInv.1,
        pubInvariant_filter_solicitud db sol hmem hpend hInv.1.2.2.2.1 hInv.2⟩
  | cambiarEstado userId idParam nuevoEstado =>
    rcases actualizar_db_cases db userId idParam nuevoEstado with
      hsame | ⟨sol, hmem, hna, heq⟩ | ⟨sol, hmem, hna, hne, heq⟩
    · rw [hsame]
      exact hInv
    · rw [heq]
      exact ⟨WF_aprobarCascada db sol hInv.1,
        pubInvariant_aprobarCascada db sol hmem hInv.1.2.2.2.1 hInv.2⟩
    · rw [heq]
      exact ⟨WF_updateSolicitudEstado db sol.id nuevoEstado hInv.1,
        pubInvariant_updateSolicitudEstado db sol nuevoEstado hmem hna hne
          hInv.1.2.2.2.1 hInv.2⟩

/-- Claim C1 (amended): in every state reachable through the six core
operations from the fresh store, provided the edit operation is never given
an availability value, each publication is "no disponible" exactly when it
carries an approved request — and each operation, edit included in that
restricted form, preserves the equivalence.  The unrestricted claim fails:
editar_rompe_invariante reaches a violating state through an edit that
supplies "disponible". -/
theorem invariante_disponibilidad (db : DB) (h : ReachableSinEstadoEdit db) :
    pubInvariant db := by
  suffices hInv : Inv db from hInv.2
  induction h with
  | refl => exact inv_emptyDB
  | tail hsteps hstep ih => exact inv_stepSinEstadoEdit hstep ih

/-- Witness for invariante_disponibilidad along the concrete chain publish,
submit, approve. -/
theorem invariante_disponibilidad_witness : pubInvariant dbAprob1 := by
  apply invariante_disponibilidad
  have h1 : StepSinEstadoEdit emptyDB dbPub :=
    StepSinEstadoEdit.createPub emptyDB 1 cuerpoCrear
  have h2 : StepSinEstadoEdit dbPub dbReq1 :=
    StepSinEstadoEdit.createReq dbPub 2 (JValue.num 1) (JValue.str "quiero adoptar")
  have h3 : StepSinEstadoEdit dbReq1 dbAprob1 :=
    StepSinEstadoEdit.cambiarEstado dbReq1 1 "1" "Aprobada"
  exact .tail (.tail (.single h1) h2) h3

/-- Claim C1 (counterexample): dbEditado is reachable through the core
operations — publish, submit, approve, then edit supplying availability
"disponible" — yet violates the equivalence: publication 1 is "disponible"
while its request 1 is "Aprobada", so the edit operation does not preserve
it. -/
theorem editar_rompe_invariante : Reachable dbEditado ∧ ¬ pubInvariant dbEditado := by
  constructor
  · have h1 : Step emptyDB dbPub := Step.createPub emptyDB 1 cuerpoCrear
    have h2 : Step dbPub dbReq1 :=
      Step.createReq dbPub 2 (JValue.num 1) (JValue.str "quiero adoptar")
    have h3 : Step dbReq1 dbAprob1 := Step.cambiarEstado dbReq1 1 "1" "Aprobada"
    have h4 : Step dbAprob1 dbEditado :=
      Step.updatePub dbAprob1 1 "1" cuerpoEditarDisponible
    exact .tail (.tail (.tail (.single h1) h2) h3) h4
  · decide

end PetNet
